import Mathlib

/-!
Shallow embedding of the `unix_mode` library (`src/lib.rs`).

The library decodes a 32-bit Unix mode value: a file-type classifier
(`Type::from`, embedded as `FileType.fromMode`), a permission predicate
(`is_allowed`), special-bit predicates (`is_setuid`, `is_setgid`,
`is_sticky`), seven type predicates (`is_file`, ...), and a renderer
(`to_string`) producing the 10-character `ls`-style string, embedded here
as a `List Char`.

Mode values are embedded as `Nat`; the Rust code only ever shifts right
and masks a `u32`, so on inputs below `2 ^ 32` the `Nat` operations agree
exactly with the `u32` operations (no overflow is possible).
-/

namespace UnixMode

/-- Embeds `type_bits` (src/lib.rs:66): `(mode >> 12) & 0o17`. -/
def type_bits (mode : Nat) : Nat :=
  (mode >>> 12) &&& 0o17

/-- Embeds the `Type` enum (src/lib.rs:78). Named `FileType` because `Type`
is reserved in Lean. -/
inductive FileType where
  | File
  | Dir
  | Symlink
  | Socket
  | Fifo
  | BlockDevice
  | CharDevice
  | Whiteout
  | Unknown
deriving DecidableEq, Fintype

/-- Embeds `impl From<u32> for Type` (src/lib.rs:101-118): match on
`type_bits mode`. -/
def FileType.fromMode (mode : Nat) : FileType :=
  match type_bits mode with
  | 0o001 => .Fifo
  | 0o002 => .CharDevice
  | 0o004 => .Dir
  | 0o006 => .BlockDevice
  | 0o010 => .File
  | 0o012 => .Symlink
  | 0o014 => .Socket
  | 0o016 => .Whiteout
  | _ => .Unknown

/-- Embeds the `Accessor` enum (src/lib.rs:122). -/
inductive Accessor where
  | Other
  | Group
  | User
deriving DecidableEq, Fintype

/-- Embeds the `Access` enum (src/lib.rs:133). -/
inductive Access where
  | Execute
  | Write
  | Read
deriving DecidableEq, Fintype

/-- Embeds `is_allowed` (src/lib.rs:146-161). The Rust parameter `by` is a
Lean keyword, renamed `who`. -/
def is_allowed (who : Accessor) (ty : Access) (mode : Nat) : Bool :=
  let w : Nat :=
    match who with
    | .User => 2
    | .Group => 1
    | .Other => 0
  let bits := (mode >>> (3 * w)) &&& 0o7
  let t : Nat :=
    match ty with
    | .Read => 2
    | .Write => 1
    | .Execute => 0
  bits &&& (1 <<< t) != 0

/-- Embeds `is_file` (src/lib.rs:169). -/
def is_file (mode : Nat) : Bool :=
  FileType.fromMode mode == FileType.File

/-- Embeds `is_dir` (src/lib.rs:179). -/
def is_dir (mode : Nat) : Bool :=
  FileType.fromMode mode == FileType.Dir

/-- Embeds `is_symlink` (src/lib.rs:189). -/
def is_symlink (mode : Nat) : Bool :=
  FileType.fromMode mode == FileType.Symlink

/-- Embeds `is_fifo` (src/lib.rs:194). -/
def is_fifo (mode : Nat) : Bool :=
  FileType.fromMode mode == FileType.Fifo

/-- Embeds `is_char_device` (src/lib.rs:199). -/
def is_char_device (mode : Nat) : Bool :=
  FileType.fromMode mode == FileType.CharDevice

/-- Embeds `is_block_device` (src/lib.rs:209). -/
def is_block_device (mode : Nat) : Bool :=
  FileType.fromMode mode == FileType.BlockDevice

/-- Embeds `is_socket` (src/lib.rs:214). -/
def is_socket (mode : Nat) : Bool :=
  FileType.fromMode mode == FileType.Socket

/-- Embeds `is_setuid` (src/lib.rs:219): `mode & 0o4000 != 0`. -/
def is_setuid (mode : Nat) : Bool :=
  mode &&& 0o4000 != 0

/-- Embeds `is_setgid` (src/lib.rs:224): `mode & 0o2000 != 0`. -/
def is_setgid (mode : Nat) : Bool :=
  mode &&& 0o2000 != 0

/-- Embeds `is_sticky` (src/lib.rs:229): `mode & 0o1000 != 0`. -/
def is_sticky (mode : Nat) : Bool :=
  mode &&& 0o1000 != 0

/-- Embeds the type-character `match` inside `to_string` (src/lib.rs:264-274),
factored out as a named function of the matched `Type` value. -/
def typeChar (t : FileType) : Char :=
  match t with
  | .Fifo => 'p'
  | .CharDevice => 'c'
  | .Dir => 'd'
  | .BlockDevice => 'b'
  | .File => '-'
  | .Symlink => 'l'
  | .Socket => 's'
  | .Whiteout => 'w'
  | .Unknown => '?'

/-- Embeds the permission-character `match` inside the loops of `to_string`
(src/lib.rs:277-290), factored out as a named function of the captured
special-bit flags, the loop variables, and the matched `is_allowed` result.
A Rust arm `(Execute, User, true) if setuid => 's'` that falls through to
`(Execute, _, true) => 'x'` is rendered as
`| .Execute, .User, true => if setuid then 's' else 'x'`,
which is exactly the guard-fallthrough semantics. -/
def permChar (setuid setgid sticky : Bool) (accessor : Accessor) (access : Access)
    (allowed : Bool) : Char :=
  match access, accessor, allowed with
  | .Execute, .User, true => if setuid then 's' else 'x'
  | .Execute, .User, false => if setuid then 'S' else '-'
  | .Execute, .Group, true => if setgid then 's' else 'x'
  | .Execute, .Group, false => if setgid then 'S' else '-'
  | .Execute, .Other, true => if sticky then 't' else 'x'
  | .Execute, .Other, false => if sticky then 'T' else '-'
  | .Write, _, true => 'w'
  | .Read, _, true => 'r'
  | _, _, false => '-'

/-- Embeds `to_string` (src/lib.rs:252-294). The Rust `String` built by ten
`push` calls is embedded as a `List Char`; the two nested `for` loops over
`[User, Group, Other]` and `[Read, Write, Execute]` become `flatMap`/`map`
over the same literal lists. -/
def to_string (mode : Nat) : List Char :=
  let setuid := is_setuid mode
  let setgid := is_setgid mode
  let sticky := is_sticky mode
  typeChar (FileType.fromMode mode) ::
    ([Accessor.User, Accessor.Group, Accessor.Other].flatMap fun accessor =>
      ([Access.Read, Access.Write, Access.Execute].map fun access =>
        permChar setuid setgid sticky accessor access (is_allowed accessor access mode)))

/-! ### Spec-side definitions

These follow the wording of the specification / claims, to be compared
with the embedded source definitions above. -/

/-- Spec-side type table (spec §4.1, claim C2): the fixed lookup table from
the 4-bit type code, octal 001→Fifo, 002→CharDevice, 004→Dir,
006→BlockDevice, 010→File, 012→Symlink, 014→Socket, 016→Whiteout,
every other 4-bit value→Unknown. -/
def specTypeTable (code : Nat) : FileType :=
  match code with
  | 0o001 => .Fifo
  | 0o002 => .CharDevice
  | 0o004 => .Dir
  | 0o006 => .BlockDevice
  | 0o010 => .File
  | 0o012 => .Symlink
  | 0o014 => .Socket
  | 0o016 => .Whiteout
  | _ => .Unknown

/-- Spec-side type glyph table (spec §4.5, claim C1): Fifo→'p',
CharDevice→'c', Dir→'d', BlockDevice→'b', File→'-', Symlink→'l',
Socket→'s', Whiteout→'w', Unknown→'?'. -/
def specTypeGlyph (t : FileType) : Char :=
  match t with
  | .Fifo => 'p'
  | .CharDevice => 'c'
  | .Dir => 'd'
  | .BlockDevice => 'b'
  | .File => '-'
  | .Symlink => 'l'
  | .Socket => 's'
  | .Whiteout => 'w'
  | .Unknown => '?'

/-- Spec-side permission character (spec §4.5, claim C1): in the Execute
slot, when the matching special bit is set (setuid for Owner, setgid for
Group, sticky for Other), emit lower-case 's'/'t' if that execute access
is allowed and upper-case 'S'/'T' if denied, regardless of the underlying
execute bit; otherwise Execute→'x'/'-', Write→'w'/'-', Read→'r'/'-'. -/
def specPermChar (setuid setgid sticky : Bool) (accessor : Accessor) (access : Access)
    (allowed : Bool) : Char :=
  match access with
  | .Execute =>
    match accessor with
    | .User => if setuid then (if allowed then 's' else 'S') else (if allowed then 'x' else '-')
    | .Group => if setgid then (if allowed then 's' else 'S') else (if allowed then 'x' else '-')
    | .Other => if sticky then (if allowed then 't' else 'T') else (if allowed then 'x' else '-')
  | .Write => if allowed then 'w' else '-'
  | .Read => if allowed then 'r' else '-'

/-- Spec-side renderer (spec §4.5, claim C1): position 0 is the type glyph,
positions 1-9 are the permission characters for the accessors in order
Owner, Group, Other and access kinds in order Read, Write, Execute. -/
def render_spec (mode : Nat) : List Char :=
  specTypeGlyph (FileType.fromMode mode) ::
    ([Accessor.User, Accessor.Group, Accessor.Other].flatMap fun accessor =>
      ([Access.Read, Access.Write, Access.Execute].map fun access =>
        specPermChar (is_setuid mode) (is_setgid mode) (is_sticky mode) accessor access
          (is_allowed accessor access mode)))

/-- Spec-side accessor rank (spec §4.2, claim C3): Owner=2, Group=1,
Other=0. -/
def accessor_rank (who : Accessor) : Nat :=
  match who with
  | .User => 2
  | .Group => 1
  | .Other => 0

/-- Spec-side access rank (spec §4.2, claim C3): Read=2, Write=1,
Execute=0. -/
def access_rank (ty : Access) : Nat :=
  match ty with
  | .Read => 2
  | .Write => 1
  | .Execute => 0

/-- Position, within the 10-character rendered string, of the permission
character corresponding to an accessor/access pair (claims C4, C9):
positions 1-9 in the order Owner then Group then Other, each Read then
Write then Execute. -/
def permPos (who : Accessor) (ty : Access) : Nat :=
  match who, ty with
  | .User, .Read => 1
  | .User, .Write => 2
  | .User, .Execute => 3
  | .Group, .Read => 4
  | .Group, .Write => 5
  | .Group, .Execute => 6
  | .Other, .Read => 7
  | .Other, .Write => 8
  | .Other, .Execute => 9

/-- Bit index, within the mode value, tested by `is_allowed` for a given
accessor/access pair: `3 * accessor_rank + access_rank`. -/
def permBit (who : Accessor) (ty : Access) : Nat :=
  3 * accessor_rank who + access_rank ty

example : to_string 0o0040755 = ['d', 'r', 'w', 'x', 'r', '-', 'x', 'r', '-', 'x'] := by decide
example : to_string 0o0100640 = ['-', 'r', 'w', '-', 'r', '-', '-', '-', '-', '-'] := by decide
example : to_string 0o0041777 = ['d', 'r', 'w', 'x', 'r', 'w', 'x', 'r', 'w', 't'] := by decide
example : to_string 0o0020600 = ['c', 'r', 'w', '-', '-', '-', '-', '-', '-', '-'] := by decide
example : to_string 0o0060600 = ['b', 'r', 'w', '-', '-', '-', '-', '-', '-', '-'] := by decide
example : to_string 0o0120777 = ['l', 'r', 'w', 'x', 'r', 'w', 'x', 'r', 'w', 'x'] := by decide
example : to_string 0o1000 = ['?', '-', '-', '-', '-', '-', '-', '-', '-', 'T'] := by decide
example : to_string 0o1111 = ['?', '-', '-', 'x', '-', '-', 'x', '-', '-', 't'] := by decide
example : to_string 0o6000 = ['?', '-', '-', 'S', '-', '-', 'S', '-', '-', '-'] := by decide
example : to_string 0o6111 = ['?', '-', '-', 's', '-', '-', 's', '-', '-', 'x'] := by decide

/-! ### Helper lemmas -/

/-- Testing a single power-of-two bit with `&&&` is `Nat.testBit`. -/
theorem and_one_shiftLeft_bne_zero (x t : Nat) : (x &&& (1 <<< t) != 0) = x.testBit t := by
  rw [Nat.one_shiftLeft]
  cases h : x.testBit t with
  | false =>
    have hz : x &&& 2 ^ t = 0 := by
      apply Nat.eq_of_testBit_eq
      intro i
      simp only [Nat.testBit_and, Nat.zero_testBit, Nat.testBit_two_pow]
      rcases eq_or_ne t i with rfl | hne
      · simp [h]
      · simp [hne]
    rw [hz]
    rfl
  | true =>
    have hnz : x &&& 2 ^ t ≠ 0 := by
      intro hz
      have htb := congrArg (fun y => y.testBit t) hz
      simp only [Nat.testBit_and, h, Nat.testBit_two_pow, Nat.zero_testBit] at htb
      simp at htb
    simp [bne_iff_ne, hnz]

/-- Low three bits, then a power-of-two bit below 8: collapses to one
`testBit`. -/
theorem and_seven_and_shift (x t : Nat) (ht : t < 3) :
    (((x &&& 7) &&& (1 <<< t)) != 0) = x.testBit t := by
  have h7 : 7 &&& (1 <<< t) = 1 <<< t := by
    interval_cases t <;> decide
  rw [Nat.and_assoc, h7, and_one_shiftLeft_bne_zero]

/-- `is_allowed` tests exactly the single mode bit `permBit who ty`. -/
theorem is_allowed_testBit (who : Accessor) (ty : Access) (mode : Nat) :
    is_allowed who ty mode = mode.testBit (permBit who ty) := by
  have k : ∀ s t, t < 3 →
      ((((mode >>> s) &&& 7) &&& (1 <<< t)) != 0) = mode.testBit (s + t) := by
    intro s t ht
    rw [and_seven_and_shift _ t ht, Nat.testBit_shiftRight]
  cases who <;> cases ty
  · exact k 0 0 (by decide)
  · exact k 0 1 (by decide)
  · exact k 0 2 (by decide)
  · exact k 3 0 (by decide)
  · exact k 3 1 (by decide)
  · exact k 3 2 (by decide)
  · exact k 6 0 (by decide)
  · exact k 6 1 (by decide)
  · exact k 6 2 (by decide)

/-- `is_setuid` tests mode bit 11. -/
theorem is_setuid_testBit (mode : Nat) : is_setuid mode = mode.testBit 11 :=
  and_one_shiftLeft_bne_zero mode 11

/-- `is_setgid` tests mode bit 10. -/
theorem is_setgid_testBit (mode : Nat) : is_setgid mode = mode.testBit 10 :=
  and_one_shiftLeft_bne_zero mode 10

/-- `is_sticky` tests mode bit 9. -/
theorem is_sticky_testBit (mode : Nat) : is_sticky mode = mode.testBit 9 :=
  and_one_shiftLeft_bne_zero mode 9

/-- The type field is a 4-bit value. -/
theorem type_bits_lt (mode : Nat) : type_bits mode < 16 :=
  Nat.lt_succ_of_le Nat.and_le_right

/-- Bits of the type field in terms of bits of the mode. -/
theorem type_bits_testBit (mode i : Nat) :
    (type_bits mode).testBit i = (decide (i < 4) && mode.testBit (12 + i)) := by
  rw [type_bits, (by decide : (0o17 : Nat) = 2 ^ 4 - 1)]
  simp only [Nat.testBit_and, Nat.testBit_shiftRight, Nat.testBit_two_pow_sub_one]
  rw [Bool.and_comm]

/-- XOR-ing in bits strictly below bit 12 leaves the type field unchanged. -/
theorem type_bits_xor (mode k : Nat) (hk : k < 4096) :
    type_bits (mode ^^^ k) = type_bits mode := by
  apply Nat.eq_of_testBit_eq
  intro i
  rw [type_bits_testBit, type_bits_testBit, Nat.testBit_xor]
  have h2 : (4096 : Nat) ≤ 2 ^ (12 + i) := by
    calc (4096 : Nat) = 2 ^ 12 := by decide
    _ ≤ 2 ^ (12 + i) := Nat.pow_le_pow_right (by decide) (by omega)
  have hkb : k.testBit (12 + i) = false :=
    Nat.testBit_lt_two_pow (Nat.lt_of_lt_of_le hk h2)
  rw [hkb, Bool.xor_false]

/-- XOR-ing in bits strictly below bit 12 leaves the classification
unchanged. -/
theorem fromMode_xor (mode k : Nat) (hk : k < 4096) :
    FileType.fromMode (mode ^^^ k) = FileType.fromMode mode := by
  unfold FileType.fromMode
  rw [type_bits_xor mode k hk]

/-- `permBit` always lands in the nine permission bits 0-8. -/
theorem permBit_lt (who : Accessor) (ty : Access) : permBit who ty < 9 := by
  cases who <;> cases ty <;> decide

/-- XOR-ing in bits that are all ≥ bit 9 leaves every `is_allowed`
answer unchanged. -/
theorem is_allowed_xor (mode k : Nat) (hk : k % 512 = 0) (who : Accessor) (ty : Access) :
    is_allowed who ty (mode ^^^ k) = is_allowed who ty mode := by
  rw [is_allowed_testBit, is_allowed_testBit, Nat.testBit_xor]
  have hb : k.testBit (permBit who ty) = false := by
    have hlt : permBit who ty < 9 := permBit_lt who ty
    have h0 := Nat.testBit_mod_two_pow k 9 (permBit who ty)
    rw [(by decide : (2 : Nat) ^ 9 = 512), hk, Nat.zero_testBit,
      decide_eq_true hlt, Bool.true_and] at h0
    exact h0.symm
  rw [hb, Bool.xor_false]

/-- XOR-ing in a value with bit 11 clear leaves `is_setuid` unchanged. -/
theorem is_setuid_xor (mode k : Nat) (hk : k.testBit 11 = false) :
    is_setuid (mode ^^^ k) = is_setuid mode := by
  rw [is_setuid_testBit, is_setuid_testBit, Nat.testBit_xor, hk, Bool.xor_false]

/-- XOR-ing in a value with bit 10 clear leaves `is_setgid` unchanged. -/
theorem is_setgid_xor (mode k : Nat) (hk : k.testBit 10 = false) :
    is_setgid (mode ^^^ k) = is_setgid mode := by
  rw [is_setgid_testBit, is_setgid_testBit, Nat.testBit_xor, hk, Bool.xor_false]

/-- XOR-ing in a value with bit 9 clear leaves `is_sticky` unchanged. -/
theorem is_sticky_xor (mode k : Nat) (hk : k.testBit 9 = false) :
    is_sticky (mode ^^^ k) = is_sticky mode := by
  rw [is_sticky_testBit, is_sticky_testBit, Nat.testBit_xor, hk, Bool.xor_false]

/-- `to_string`, unrolled to its ten characters. -/
theorem to_string_eq (mode : Nat) :
    to_string mode =
      [typeChar (FileType.fromMode mode),
       permChar (is_setuid mode) (is_setgid mode) (is_sticky mode) .User .Read
         (is_allowed .User .Read mode),
       permChar (is_setuid mode) (is_setgid mode) (is_sticky mode) .User .Write
         (is_allowed .User .Write mode),
       permChar (is_setuid mode) (is_setgid mode) (is_sticky mode) .User .Execute
         (is_allowed .User .Execute mode),
       permChar (is_setuid mode) (is_setgid mode) (is_sticky mode) .Group .Read
         (is_allowed .Group .Read mode),
       permChar (is_setuid mode) (is_setgid mode) (is_sticky mode) .Group .Write
         (is_allowed .Group .Write mode),
       permChar (is_setuid mode) (is_setgid mode) (is_sticky mode) .Group .Execute
         (is_allowed .Group .Execute mode),
       permChar (is_setuid mode) (is_setgid mode) (is_sticky mode) .Other .Read
         (is_allowed .Other .Read mode),
       permChar (is_setuid mode) (is_setgid mode) (is_sticky mode) .Other .Write
         (is_allowed .Other .Write mode),
       permChar (is_setuid mode) (is_setgid mode) (is_sticky mode) .Other .Execute
         (is_allowed .Other .Execute mode)] := rfl

/-- `render_spec`, unrolled to its ten characters. -/
theorem render_spec_eq (mode : Nat) :
    render_spec mode =
      [specTypeGlyph (FileType.fromMode mode),
       specPermChar (is_setuid mode) (is_setgid mode) (is_sticky mode) .User .Read
         (is_allowed .User .Read mode),
       specPermChar (is_setuid mode) (is_setgid mode) (is_sticky mode) .User .Write
         (is_allowed .User .Write mode),
       specPermChar (is_setuid mode) (is_setgid mode) (is_sticky mode) .User .Execute
         (is_allowed .User .Execute mode),
       specPermChar (is_setuid mode) (is_setgid mode) (is_sticky mode) .Group .Read
         (is_allowed .Group .Read mode),
       specPermChar (is_setuid mode) (is_setgid mode) (is_sticky mode) .Group .Write
         (is_allowed .Group .Write mode),
       specPermChar (is_setuid mode) (is_setgid mode) (is_sticky mode) .Group .Execute
         (is_allowed .Group .Execute mode),
       specPermChar (is_setuid mode) (is_setgid mode) (is_sticky mode) .Other .Read
         (is_allowed .Other .Read mode),
       specPermChar (is_setuid mode) (is_setgid mode) (is_sticky mode) .Other .Write
         (is_allowed .Other .Write mode),
       specPermChar (is_setuid mode) (is_setgid mode) (is_sticky mode) .Other .Execute
         (is_allowed .Other .Execute mode)] := rfl

/-- The source permission character and the spec permission character
agree on every combination of flags and slot. -/
theorem permChar_eq_spec :
    ∀ (su sg st : Bool) (a : Accessor) (c : Access) (al : Bool),
      permChar su sg st a c al = specPermChar su sg st a c al := by
  decide

/-- The source type character and the spec type glyph agree. -/
theorem typeChar_eq_glyph (t : FileType) : typeChar t = specTypeGlyph t := by
  cases t <;> rfl

/-- The permission character ignores the setuid flag except in the Owner
Execute slot. -/
theorem permChar_su_irrel :
    ∀ (su su' sg st : Bool) (a : Accessor) (c : Access) (al : Bool),
      ¬(a = .User ∧ c = .Execute) → permChar su sg st a c al = permChar su' sg st a c al := by
  decide

/-- The permission character ignores the setgid flag except in the Group
Execute slot. -/
theorem permChar_sg_irrel :
    ∀ (su sg sg' st : Bool) (a : Accessor) (c : Access) (al : Bool),
      ¬(a = .Group ∧ c = .Execute) → permChar su sg st a c al = permChar su sg' st a c al := by
  decide

/-- The permission character ignores the sticky flag except in the Other
Execute slot. -/
theorem permChar_st_irrel :
    ∀ (su sg st st' : Bool) (a : Accessor) (c : Access) (al : Bool),
      ¬(a = .Other ∧ c = .Execute) → permChar su sg st a c al = permChar su sg st' a c al := by
  decide

/-- Classification of permission characters by the `is_allowed` value that
produced them: denied accesses render as '-', 'S' or 'T'; allowed accesses
render as 'r', 'w', 'x', 's' or 't'. -/
theorem permChar_classification :
    ∀ (su sg st : Bool) (a : Accessor) (c : Access) (al : Bool),
      ((permChar su sg st a c al = '-' ∨ permChar su sg st a c al = 'S' ∨
          permChar su sg st a c al = 'T') ↔ al = false) ∧
      ((permChar su sg st a c al = 'r' ∨ permChar su sg st a c al = 'w' ∨
          permChar su sg st a c al = 'x' ∨ permChar su sg st a c al = 's' ∨
          permChar su sg st a c al = 't') ↔ al = true) := by
  decide

/-- `FileType.fromMode` factors through the spec table applied to the type
field. -/
theorem fromMode_eq_table_type_bits (mode : Nat) :
    FileType.fromMode mode = specTypeTable (type_bits mode) := by
  obtain ⟨t, ht, h16⟩ : ∃ t, type_bits mode = t ∧ t < 16 := ⟨_, rfl, type_bits_lt mode⟩
  unfold FileType.fromMode
  rw [ht]
  interval_cases t <;> rfl

/-! ### Claim theorems -/

/-- Claim C1: for every 32-bit mode value, `to_string` returns the string
whose position 0 is the type glyph given by the table and whose positions
1-9 are, for the accessors in order Owner, Group, Other and access kinds
in order Read, Write, Execute, the character given by the strict
precedence rules (special-bit override in the Execute slot: 's'/'t' if
execute allowed, 'S'/'T' if denied; otherwise 'x'/'w'/'r' or '-'),
stated as agreement with the renderer `render_spec` written from the
spec's words. -/
theorem to_string_matches_render_spec (mode : Nat) (h : mode < 2 ^ 32) :
    to_string mode = render_spec mode := by
  rw [to_string_eq, render_spec_eq]
  simp only [typeChar_eq_glyph, permChar_eq_spec]

/-- Witness for C1 at the classic sticky-directory mode. -/
theorem to_string_matches_render_spec_witness :
    0o0041777 < 2 ^ 32 ∧ to_string 0o0041777 = render_spec 0o0041777 :=
  ⟨by decide, to_string_matches_render_spec 0o0041777 (by decide)⟩

/-- Claim C2: for every 32-bit mode value, the type classifier extracts
the 4-bit field `(mode >>> 12) &&& 0xF` and maps it by the fixed table
(001→Fifo, 002→CharDevice, 004→Dir, 006→BlockDevice, 010→File,
012→Symlink, 014→Socket, 016→Whiteout, otherwise Unknown); total, with
exactly one classification and no error path. -/
theorem fromMode_table (mode : Nat) (h : mode < 2 ^ 32) :
    FileType.fromMode mode = specTypeTable ((mode >>> 12) &&& 0xF) := by
  rw [fromMode_eq_table_type_bits]
  rfl

/-- Witness for C2 at a plain-file mode. -/
theorem fromMode_table_witness :
    0o0100640 < 2 ^ 32 ∧
      FileType.fromMode 0o0100640 = specTypeTable ((0o0100640 >>> 12) &&& 0xF) :=
  ⟨by decide, fromMode_table 0o0100640 (by decide)⟩

/-- Claim C3: for every 32-bit mode value, accessor and access kind,
`is_allowed` returns true iff bit `1 <<< access_rank` is set in
`(mode >>> (3 * accessor_rank)) &&& 0o7`, with Owner=2, Group=1, Other=0
and Read=2, Write=1, Execute=0; total with no error path. -/
theorem is_allowed_bit_rule (mode : Nat) (h : mode < 2 ^ 32)
    (who : Accessor) (ty : Access) :
    is_allowed who ty mode = true ↔
      ((mode >>> (3 * accessor_rank who)) &&& 0o7) &&& (1 <<< access_rank ty) ≠ 0 := by
  cases who <;> cases ty <;>
    simp [is_allowed, accessor_rank, access_rank, bne_iff_ne]

/-- Witness for C3 at the owner-read bit of a plain file. -/
theorem is_allowed_bit_rule_witness :
    0o0100640 < 2 ^ 32 ∧
      (is_allowed .User .Read 0o0100640 = true ↔
        ((0o0100640 >>> (3 * accessor_rank .User)) &&& 0o7) &&&
            (1 <<< access_rank .Read) ≠ 0) :=
  ⟨by decide, is_allowed_bit_rule 0o0100640 (by decide) .User .Read⟩

/-- Claim C4 counterexample: at mode `0o4000` (setuid set, all execute
bits clear) the Owner Execute character of `to_string` is 'S', not '-',
although `is_allowed` is false there — so "the character is '-' iff
is_allowed returns false" fails as stated. -/
theorem render_agreement_counterexample :
    ¬(((to_string 0o4000).getD (permPos .User .Execute) ' ' = '-') ↔
        is_allowed .User .Execute 0o4000 = false) := by
  decide

/-- Claim C4, amended: for every 32-bit mode value and accessor/access
pair, the corresponding permission character of `to_string` is '-', 'S'
or 'T' iff `is_allowed` returns false, and is one of 'r', 'w', 'x', 's',
't' iff `is_allowed` returns true. -/
theorem render_agreement_amended (mode : Nat) (h : mode < 2 ^ 32)
    (who : Accessor) (ty : Access) :
    (((to_string mode).getD (permPos who ty) ' ' = '-' ∨
        (to_string mode).getD (permPos who ty) ' ' = 'S' ∨
        (to_string mode).getD (permPos who ty) ' ' = 'T') ↔
      is_allowed who ty mode = false) ∧
    (((to_string mode).getD (permPos who ty) ' ' = 'r' ∨
        (to_string mode).getD (permPos who ty) ' ' = 'w' ∨
        (to_string mode).getD (permPos who ty) ' ' = 'x' ∨
        (to_string mode).getD (permPos who ty) ' ' = 's' ∨
        (to_string mode).getD (permPos who ty) ' ' = 't') ↔
      is_allowed who ty mode = true) := by
  have hchar : (to_string mode).getD (permPos who ty) ' ' =
      permChar (is_setuid mode) (is_setgid mode) (is_sticky mode) who ty
        (is_allowed who ty mode) := by
    rw [to_string_eq]
    cases who <;> cases ty <;> rfl
  rw [hchar]
  exact permChar_classification _ _ _ who ty _

/-- Witness for the amended C4 at the Owner Execute slot of a setuid mode. -/
theorem render_agreement_amended_witness :
    0o4000 < 2 ^ 32 ∧
      (((to_string 0o4000).getD (permPos .User .Execute) ' ' = '-' ∨
          (to_string 0o4000).getD (permPos .User .Execute) ' ' = 'S' ∨
          (to_string 0o4000).getD (permPos .User .Execute) ' ' = 'T') ↔
        is_allowed .User .Execute 0o4000 = false) :=
  ⟨by decide, (render_agreement_amended 0o4000 (by decide) .User .Execute).1⟩

/-- Claim C5: for every 32-bit mode value, each of the seven type
predicates returns exactly the value of the equation
`classify(mode) == <variant>`. -/
theorem type_predicates_eq_classify (mode : Nat) (h : mode < 2 ^ 32) :
    (is_file mode = true ↔ FileType.fromMode mode = .File) ∧
    (is_dir mode = true ↔ FileType.fromMode mode = .Dir) ∧
    (is_symlink mode = true ↔ FileType.fromMode mode = .Symlink) ∧
    (is_fifo mode = true ↔ FileType.fromMode mode = .Fifo) ∧
    (is_char_device mode = true ↔ FileType.fromMode mode = .CharDevice) ∧
    (is_block_device mode = true ↔ FileType.fromMode mode = .BlockDevice) ∧
    (is_socket mode = true ↔ FileType.fromMode mode = .Socket) := by
  simp [is_file, is_dir, is_symlink, is_fifo, is_char_device, is_block_device, is_socket]

/-- Witness for C5 at a directory mode. -/
theorem type_predicates_eq_classify_witness :
    0o0040755 < 2 ^ 32 ∧ (is_dir 0o0040755 = true ↔ FileType.fromMode 0o0040755 = .Dir) :=
  ⟨by decide, (type_predicates_eq_classify 0o0040755 (by decide)).2.1⟩

/-- Claim C6: for every pair of 32-bit mode values that agree on bits
12-15, the classifier returns the same type classification (so varying
permission bits, special bits or bits 16-31 never changes the result). -/
theorem classify_ignores_non_type_bits (m1 m2 : Nat) (h1 : m1 < 2 ^ 32)
    (h2 : m2 < 2 ^ 32) (h : (m1 >>> 12) &&& 0xF = (m2 >>> 12) &&& 0xF) :
    FileType.fromMode m1 = FileType.fromMode m2 := by
  have ht : type_bits m1 = type_bits m2 := h
  unfold FileType.fromMode
  rw [ht]

/-- Witness for C6: two file modes with different permission and special
bits classify identically. -/
theorem classify_ignores_non_type_bits_witness :
    0o0100640 < 2 ^ 32 ∧ 0o0104755 < 2 ^ 32 ∧
      (0o0100640 >>> 12) &&& 0xF = (0o0104755 >>> 12) &&& 0xF ∧
      FileType.fromMode 0o0100640 = FileType.fromMode 0o0104755 :=
  ⟨by decide, by decide, by decide,
    classify_ignores_non_type_bits 0o0100640 0o0104755 (by decide) (by decide) (by decide)⟩

/-- Claim C7: for every 32-bit mode value, `is_setuid` is true iff
`mode &&& 0o4000 ≠ 0`, `is_setgid` iff `mode &&& 0o2000 ≠ 0`, `is_sticky`
iff `mode &&& 0o1000 ≠ 0`; the three predicates are independent of each
other (every combination of the three values is realized, in particular
all three can be simultaneously true). -/
theorem special_bit_predicates (mode : Nat) (h : mode < 2 ^ 32) :
    (is_setuid mode = true ↔ mode &&& 0o4000 ≠ 0) ∧
    (is_setgid mode = true ↔ mode &&& 0o2000 ≠ 0) ∧
    (is_sticky mode = true ↔ mode &&& 0o1000 ≠ 0) ∧
    (∀ b1 b2 b3 : Bool, ∃ m : Nat, m < 2 ^ 32 ∧
      is_setuid m = b1 ∧ is_setgid m = b2 ∧ is_sticky m = b3) := by
  refine ⟨?_, ?_, ?_, ?_⟩
  · simp [is_setuid, bne_iff_ne]
  · simp [is_setgid, bne_iff_ne]
  · simp [is_sticky, bne_iff_ne]
  · intro b1 b2 b3
    refine ⟨0o4000 * b1.toNat + 0o2000 * b2.toNat + 0o1000 * b3.toNat, ?_⟩
    cases b1 <;> cases b2 <;> cases b3 <;> decide

/-- Witness for C7 at a mode with all three special bits set. -/
theorem special_bit_predicates_witness :
    0o7000 < 2 ^ 32 ∧ (is_setuid 0o7000 = true ↔ 0o7000 &&& 0o4000 ≠ 0) :=
  ⟨by decide, (special_bit_predicates 0o7000 (by decide)).1⟩

/-- Claim C8: for every 32-bit mode value, `to_string` produces a string
of exactly 10 characters, with no error path. -/
theorem to_string_length_ten (mode : Nat) (h : mode < 2 ^ 32) :
    (to_string mode).length = 10 := by
  rw [to_string_eq]
  rfl

/-- Witness for C8. -/
theorem to_string_length_ten_witness :
    0o0120777 < 2 ^ 32 ∧ (to_string 0o0120777).length = 10 :=
  ⟨by decide, to_string_length_ten 0o0120777 (by decide)⟩

/-- Claim C9: toggling only the setuid bit (`0o4000`) changes the rendered
string at no position other than 3 (the Owner execute slot), toggling only
setgid (`0o2000`) at no position other than 6, and toggling only sticky
(`0o1000`) at no position other than 9. -/
theorem special_bit_toggle_frame (mode : Nat) (h : mode < 2 ^ 32) :
    (∀ i, i < 10 → i ≠ 3 →
      (to_string (mode ^^^ 0o4000)).getD i ' ' = (to_string mode).getD i ' ') ∧
    (∀ i, i < 10 → i ≠ 6 →
      (to_string (mode ^^^ 0o2000)).getD i ' ' = (to_string mode).getD i ' ') ∧
    (∀ i, i < 10 → i ≠ 9 →
      (to_string (mode ^^^ 0o1000)).getD i ' ' = (to_string mode).getD i ' ') := by
  refine ⟨?_, ?_, ?_⟩
  · intro i hi hne
    interval_cases i <;>
      first
        | exact absurd rfl hne
        | (rw [to_string_eq, to_string_eq]
           simp only [List.getD_cons_zero, List.getD_cons_succ,
             fromMode_xor mode 0o4000 (by decide),
             is_allowed_xor mode 0o4000 (by decide),
             is_setgid_xor mode 0o4000 (by decide),
             is_sticky_xor mode 0o4000 (by decide)]
           try first
             | rfl
             | exact permChar_su_irrel _ _ _ _ _ _ _ (by decide))
  · intro i hi hne
    interval_cases i <;>
      first
        | exact absurd rfl hne
        | (rw [to_string_eq, to_string_eq]
           simp only [List.getD_cons_zero, List.getD_cons_succ,
             fromMode_xor mode 0o2000 (by decide),
             is_allowed_xor mode 0o2000 (by decide),
             is_setuid_xor mode 0o2000 (by decide),
             is_sticky_xor mode 0o2000 (by decide)]
           try first
             | rfl
             | exact permChar_sg_irrel _ _ _ _ _ _ _ (by decide))
  · intro i hi hne
    interval_cases i <;>
      first
        | exact absurd rfl hne
        | (rw [to_string_eq, to_string_eq]
           simp only [List.getD_cons_zero, List.getD_cons_succ,
             fromMode_xor mode 0o1000 (by decide),
             is_allowed_xor mode 0o1000 (by decide),
             is_setuid_xor mode 0o1000 (by decide),
             is_setgid_xor mode 0o1000 (by decide)]
           try first
             | rfl
             | exact permChar_st_irrel _ _ _ _ _ _ _ (by decide))

/-- Witness for C9: toggling setuid on a directory mode leaves the Owner
read character (position 1) unchanged. -/
theorem special_bit_toggle_frame_witness :
    0o0040755 < 2 ^ 32 ∧
      (to_string (0o0040755 ^^^ 0o4000)).getD 1 ' ' = (to_string 0o0040755).getD 1 ' ' :=
  ⟨by decide, (special_bit_toggle_frame 0o0040755 (by decide)).1 1 (by decide) (by decide)⟩

/-- Claim C10: for every 32-bit mode value, at most one of the seven type
predicates returns true, and all seven return false exactly when the mode
classifies as Whiteout or Unknown. -/
theorem predicates_exclusive_hide_whiteout_unknown (mode : Nat) (h : mode < 2 ^ 32) :
    ([is_file mode, is_dir mode, is_symlink mode, is_fifo mode, is_char_device mode,
        is_block_device mode, is_socket mode].count true ≤ 1) ∧
    ((is_file mode = false ∧ is_dir mode = false ∧ is_symlink mode = false ∧
        is_fifo mode = false ∧ is_char_device mode = false ∧
        is_block_device mode = false ∧ is_socket mode = false) ↔
      (FileType.fromMode mode = .Whiteout ∨ FileType.fromMode mode = .Unknown)) := by
  cases hm : FileType.fromMode mode <;>
    simp only [is_file, is_dir, is_symlink, is_fifo, is_char_device, is_block_device,
      is_socket, hm] <;> decide

/-- Witness for C10 at a whiteout mode. -/
theorem predicates_exclusive_hide_whiteout_unknown_witness :
    0o0160000 < 2 ^ 32 ∧
      [is_file 0o0160000, is_dir 0o0160000, is_symlink 0o0160000, is_fifo 0o0160000,
        is_char_device 0o0160000, is_block_device 0o0160000,
        is_socket 0o0160000].count true ≤ 1 :=
  ⟨by decide, (predicates_exclusive_hide_whiteout_unknown 0o0160000 (by decide)).1⟩

end UnixMode
